import Mathlib

/-!
Verification of the `getRates` tool from `src/lib/ai/tools/get_rates.js`.

The tool validates a filter object with a `zod` schema, dynamically builds a
parameterized SQL `SELECT` over the `exchange_rates` table, executes it on a
pooled connection, and releases the connection in a `finally` block.

We embed:
* the filter data model and the query-construction algorithm of
  `getRates.execute` (predicate list, positional values, `WHERE`,
  `ORDER BY`, `LIMIT`);
* the `zod` parameter schema (`z.object` with optional fields; unknown keys
  are stripped, as `zod` does by default);
* the acquire / try / catch / finally control flow of `execute`, as explicit
  state passing over a connection-counting state.
-/

namespace GetRates

/-- A value pushed onto the positional parameter list.  `date s` stands for
the JavaScript `new Date(s)` built from the string `s`. -/
inductive SqlValue where
  | str (s : String)
  | num (n : Int)
  | date (s : String)
  deriving DecidableEq, Repr

/-- The `orderBy` sub-object of the schema: `{ column: string, ascending: boolean }`. -/
structure OrderBy where
  column : String
  ascending : Bool
  deriving DecidableEq, Repr

/-- A filter object that passed schema validation: every field of
`getRates.parameters` is optional.  JavaScript numbers are modelled as `Int`
(all values the claims mention are integers). -/
structure Filter where
  fromCurrency : Option String := none
  toCurrency : Option String := none
  side : Option Int := none
  limit : Option Int := none
  startDate : Option String := none
  endDate : Option String := none
  orderBy : Option OrderBy := none
  deriving DecidableEq, Repr

/-- The mutable build state of `execute`: the `conditions` array, the
`values` array and the `paramCount` counter (initially 1). -/
structure BuildState where
  conditions : List String
  values : List SqlValue
  paramCount : Nat
  deriving DecidableEq, Repr

/-- `conditions.push(text + "$" + paramCount); values.push(v); paramCount++`. -/
def appendCond (text : String) (v : SqlValue) (st : BuildState) : BuildState :=
  { conditions := st.conditions ++ [text ++ "$" ++ toString st.paramCount]
    values := st.values ++ [v]
    paramCount := st.paramCount + 1 }

/-- `if (fromCurrency) { ... }` — JavaScript string truthiness: the empty
string is falsy, every other string is truthy. -/
def stepFromCurrency (f : Filter) (st : BuildState) : BuildState :=
  match f.fromCurrency with
  | some s => if s == "" then st else appendCond "from_currency_id = " (SqlValue.str s) st
  | none => st

/-- `if (toCurrency) { ... }`. -/
def stepToCurrency (f : Filter) (st : BuildState) : BuildState :=
  match f.toCurrency with
  | some s => if s == "" then st else appendCond "to_currency_id = " (SqlValue.str s) st
  | none => st

/-- `if (typeof side === 'number') { ... }` — presence, not truthiness. -/
def stepSide (f : Filter) (st : BuildState) : BuildState :=
  match f.side with
  | some n => appendCond "side = " (SqlValue.num n) st
  | none => st

/-- `if (startDate) { ... values.push(new Date(startDate)) ... }`. -/
def stepStartDate (f : Filter) (st : BuildState) : BuildState :=
  match f.startDate with
  | some s => if s == "" then st else appendCond "created_at >= " (SqlValue.date s) st
  | none => st

/-- `if (endDate) { ... values.push(new Date(endDate)) ... }`. -/
def stepEndDate (f : Filter) (st : BuildState) : BuildState :=
  match f.endDate with
  | some s => if s == "" then st else appendCond "created_at <= " (SqlValue.date s) st
  | none => st

/-- The build state after the five conditional pushes of `execute`, starting
from empty arrays and `paramCount = 1`. -/
def buildState (f : Filter) : BuildState :=
  stepEndDate f (stepStartDate f (stepSide f (stepToCurrency f
    (stepFromCurrency f ⟨[], [], 1⟩))))

/-- The `conditions` array of `execute` for filter `f`. -/
def conditions (f : Filter) : List String :=
  (buildState f).conditions

/-- The `values` array of `execute` for filter `f`, before `values.push(limit)`. -/
def values (f : Filter) : List SqlValue :=
  (buildState f).values

/-- The final `paramCount` of `execute` for filter `f` (the placeholder index
used by the `LIMIT` clause). -/
def paramCount (f : Filter) : Nat :=
  (buildState f).paramCount

/-- The destructuring default `limit = 100`. -/
def limitVal (f : Filter) : Int :=
  f.limit.getD 100

/-- `conditions.length > 0 ? 'WHERE ' + conditions.join(' AND ') : ''`. -/
def whereClause (conds : List String) : String :=
  if conds.length > 0 then "WHERE " ++ String.intercalate " AND " conds else ""

/-- `orderBy ? \x7bORDER BY ${orderBy.column} ${orderBy.ascending ? 'ASC' : 'DESC'}\x7d
: 'ORDER BY created_at DESC'`. -/
def orderByClause (ob : Option OrderBy) : String :=
  match ob with
  | some o => "ORDER BY " ++ o.column ++ " " ++ (if o.ascending then "ASC" else "DESC")
  | none => "ORDER BY created_at DESC"

/-- The complete statement text, with the exact whitespace of the template
literal in `execute`. -/
def query (f : Filter) : String :=
  "\n        SELECT * FROM exchange_rates \n        " ++ whereClause (conditions f)
    ++ " \n        " ++ orderByClause f.orderBy
    ++ "\n        LIMIT $" ++ toString (paramCount f) ++ "\n      "

/-- The full positional parameter list passed to `client.query`: `values`
followed by `values.push(limit)`. -/
def queryValues (f : Filter) : List SqlValue :=
  values f ++ [SqlValue.num (limitVal f)]

/-! ### Schema validation (`getRates.parameters`, a `zod` object schema) -/

/-- A JSON-like JavaScript value as received by the tool-call interface. -/
inductive JSVal where
  | str (s : String)
  | num (n : Int)
  | bool (b : Bool)
  | null
  | obj (fields : List (String × JSVal))
  | arr (elems : List JSVal)

/-- Field lookup in a JavaScript object (first binding wins). -/
def lookupField (fields : List (String × JSVal)) (key : String) : Option JSVal :=
  match fields with
  | [] => none
  | (k, v) :: rest => if k == key then some v else lookupField rest key

/-- `z.string()`. -/
def asString (v : JSVal) : Except String String :=
  match v with
  | JSVal.str s => Except.ok s
  | _ => Except.error "Expected string"

/-- `z.number()`. -/
def asNumber (v : JSVal) : Except String Int :=
  match v with
  | JSVal.num n => Except.ok n
  | _ => Except.error "Expected number"

/-- `z.boolean()`. -/
def asBoolean (v : JSVal) : Except String Bool :=
  match v with
  | JSVal.bool b => Except.ok b
  | _ => Except.error "Expected boolean"

/-- `z.object({ column: z.string(), ascending: z.boolean() })`: both fields
required; unknown keys stripped. -/
def asOrderBy (v : JSVal) : Except String OrderBy :=
  match v with
  | JSVal.obj fields =>
    match lookupField fields "column" with
    | none => Except.error "Required"
    | some cv =>
      match asString cv with
      | Except.error e => Except.error e
      | Except.ok c =>
        match lookupField fields "ascending" with
        | none => Except.error "Required"
        | some av =>
          match asBoolean av with
          | Except.error e => Except.error e
          | Except.ok a => Except.ok ⟨c, a⟩
  | _ => Except.error "Expected object"

/-- `.optional()` applied to an inner check: an absent key validates to
`none`; a present key must satisfy the inner check. -/
def optField (check : JSVal → Except String α) (fields : List (String × JSVal))
    (key : String) : Except String (Option α) :=
  match lookupField fields key with
  | none => Except.ok none
  | some v =>
    match check v with
    | Except.ok a => Except.ok (some a)
    | Except.error e => Except.error e

/-- Validation of an input against `getRates.parameters`.  `z.object` in its
default mode strips unrecognized keys rather than rejecting them; a
wrongly-typed declared field is a validation error. -/
def parseFilter (v : JSVal) : Except String Filter :=
  match v with
  | JSVal.obj fields =>
    match optField asString fields "fromCurrency" with
    | Except.error e => Except.error e
    | Except.ok fc =>
      match optField asString fields "toCurrency" with
      | Except.error e => Except.error e
      | Except.ok tc =>
        match optField asNumber fields "side" with
        | Except.error e => Except.error e
        | Except.ok sd =>
          match optField asNumber fields "limit" with
          | Except.error e => Except.error e
          | Except.ok lm =>
            match optField asString fields "startDate" with
            | Except.error e => Except.error e
            | Except.ok sdt =>
              match optField asString fields "endDate" with
              | Except.error e => Except.error e
              | Except.ok edt =>
                match optField asOrderBy fields "orderBy" with
                | Except.error e => Except.error e
                | Except.ok ob =>
                  Except.ok ⟨fc, tc, sd, lm, sdt, edt, ob⟩
  | _ => Except.error "Expected object"

/-! ### Execution model of `execute`: connect / try / catch / finally

Stateful code is embedded by explicit state passing: an effectful computation
maps a `ConnState` to an `Except` outcome together with the updated state.
The state counts connection acquisitions and releases and records the error
log, so "released exactly once" and "no error swallowed" are provable. -/

/-- A result row: a list of column-name / value bindings. -/
abbrev Row : Type := List (String × SqlValue)

/-- The database oracle: the outcome of `client.query(text, values)`.  Errors
are identified by a string message. -/
abbrev DB : Type := String → List SqlValue → Except String (List Row)

/-- Observable connection / logging state across one invocation. -/
structure ConnState where
  acquired : Nat
  released : Nat
  errorLog : List String
  deriving Repr

/-- An effectful computation: explicit state passing; the state survives an
error (as it does in JavaScript), so `finally` can still run. -/
abbrev Eff (α : Type) : Type := ConnState → Except String α × ConnState

/-- Sequencing: on error, later effects do not run. -/
def effBind (m : Eff α) (k : α → Eff β) : Eff β := fun s =>
  match m s with
  | (Except.ok a, s1) => k a s1
  | (Except.error e, s1) => (Except.error e, s1)

/-- `await pool.connect()`. -/
def connect : Eff Unit := fun s =>
  (Except.ok (), { s with acquired := s.acquired + 1 })

/-- `client.release()`. -/
def release : Eff Unit := fun s =>
  (Except.ok (), { s with released := s.released + 1 })

/-- `await client.query(text, values)` against the oracle `db`. -/
def runQuery (db : DB) (text : String) (vs : List SqlValue) : Eff (List Row) :=
  fun s => (db text vs, s)

/-- `console.error('Error fetching rates:', error)`. -/
def logError (e : String) : Eff Unit := fun s =>
  (Except.ok (), { s with errorLog := s.errorLog ++ ["Error fetching rates: " ++ e] })

/-- `throw error`. -/
def throwErr (e : String) : Eff α := fun s => (Except.error e, s)

/-- `try { body } catch (error) { handler(error) }`. -/
def tryCatch (body : Eff α) (handler : String → Eff α) : Eff α := fun s =>
  match body s with
  | (Except.ok a, s1) => (Except.ok a, s1)
  | (Except.error e, s1) => handler e s1

/-- `try { body } finally { fin }`: `fin` runs on both outcomes and the
body's outcome is kept (`client.release()` never throws here). -/
def tryFinally (body : Eff α) (fin : Eff Unit) : Eff α := fun s =>
  match body s with
  | (r, s1) => (r, (fin s1).2)

/-- The control-flow skeleton of `getRates.execute` after query construction:
acquire a connection, run the query, on error log and re-throw, always
release. -/
def executeEff (db : DB) (f : Filter) : Eff (List Row) :=
  effBind connect (fun _ =>
    tryFinally
      (tryCatch (runQuery db (query f) (queryValues f))
        (fun e => effBind (logError e) (fun _ => throwErr e)))
      release)

/-! ### Spec-side definitions used to state and refute claims -/

/-- Stated from the spec for claim C1: the number of *present* optional
fields among `fromCurrency`, `toCurrency`, `side`, `startDate`, `endDate`
(present = supplied, regardless of truthiness). -/
def presentCount (f : Filter) : Nat :=
  f.fromCurrency.isSome.toNat + f.toCurrency.isSome.toNat + f.side.isSome.toNat
    + f.startDate.isSome.toNat + f.endDate.isSome.toNat

/-- JavaScript truthiness of an optional string: absent and `""` are falsy. -/
def strTruthy (o : Option String) : Bool :=
  match o with
  | some s => !(s == "")
  | none => false

/-- The number of fields that pass the code's presence checks (truthiness for
the four string fields, `typeof === 'number'` for `side`). -/
def truthyCount (f : Filter) : Nat :=
  (strTruthy f.fromCurrency).toNat + (strTruthy f.toCurrency).toNat
    + f.side.isSome.toNat + (strTruthy f.startDate).toNat + (strTruthy f.endDate).toNat

/-- The predicate texts (up to the positional placeholder) and parameter
values emitted for `f`, in the fixed source order. -/
def entrySpecs (f : Filter) : List (String × SqlValue) :=
  (match f.fromCurrency with
   | some s => if s == "" then [] else [("from_currency_id = ", SqlValue.str s)]
   | none => []) ++
  (match f.toCurrency with
   | some s => if s == "" then [] else [("to_currency_id = ", SqlValue.str s)]
   | none => []) ++
  (match f.side with
   | some n => [("side = ", SqlValue.num n)]
   | none => []) ++
  (match f.startDate with
   | some s => if s == "" then [] else [("created_at >= ", SqlValue.date s)]
   | none => []) ++
  (match f.endDate with
   | some s => if s == "" then [] else [("created_at <= ", SqlValue.date s)]
   | none => [])

/-- Attach consecutive positional placeholders `$start`, `$(start+1)`, … to a
list of predicate texts. -/
def numberedConds (entries : List (String × SqlValue)) (start : Nat) : List String :=
  match entries with
  | [] => []
  | (t, _) :: rest => (t ++ "$" ++ toString start) :: numberedConds rest (start + 1)

/-- Run a list of predicate pushes against a build state (used to relate the
five sequential steps of `execute` to `entrySpecs`). -/
def entryApply (es : List (String × SqlValue)) (st : BuildState) : BuildState :=
  es.foldl (fun s p => appendCond p.1 p.2 s) st

/-! ### Characterization lemmas -/

theorem numberedConds_length (es : List (String × SqlValue)) (start : Nat) :
    (numberedConds es start).length = es.length := by
  induction es generalizing start with
  | nil => rfl
  | cons p rest ih => simpa [numberedConds] using ih (start + 1)

theorem entryApply_conditions (es : List (String × SqlValue)) (st : BuildState) :
    (entryApply es st).conditions = st.conditions ++ numberedConds es st.paramCount := by
  induction es generalizing st with
  | nil => simp [entryApply, numberedConds]
  | cons p rest ih =>
    simp [entryApply, numberedConds, appendCond] at ih ⊢
    rw [ih]
    simp [appendCond]

theorem entryApply_values (es : List (String × SqlValue)) (st : BuildState) :
    (entryApply es st).values = st.values ++ es.map Prod.snd := by
  induction es generalizing st with
  | nil => simp [entryApply]
  | cons p rest ih =>
    simp [entryApply] at ih ⊢
    rw [ih]
    simp [appendCond]

theorem entryApply_paramCount (es : List (String × SqlValue)) (st : BuildState) :
    (entryApply es st).paramCount = st.paramCount + es.length := by
  induction es generalizing st with
  | nil => simp [entryApply]
  | cons p rest ih =>
    simp [entryApply] at ih ⊢
    rw [ih]
    simp [appendCond]
    omega

theorem entryApply_append (a b : List (String × SqlValue)) (st : BuildState) :
    entryApply (a ++ b) st = entryApply b (entryApply a st) := by
  simp [entryApply, List.foldl_append]

theorem stepFromCurrency_eq (f : Filter) (st : BuildState) :
    stepFromCurrency f st = entryApply
      (match f.fromCurrency with
       | some s => if s == "" then [] else [("from_currency_id = ", SqlValue.str s)]
       | none => []) st := by
  cases h : f.fromCurrency with
  | none => simp [stepFromCurrency, h, entryApply]
  | some s =>
    by_cases hs : s == "" <;> simp [stepFromCurrency, h, hs, entryApply]

theorem stepToCurrency_eq (f : Filter) (st : BuildState) :
    stepToCurrency f st = entryApply
      (match f.toCurrency with
       | some s => if s == "" then [] else [("to_currency_id = ", SqlValue.str s)]
       | none => []) st := by
  cases h : f.toCurrency with
  | none => simp [stepToCurrency, h, entryApply]
  | some s =>
    by_cases hs : s == "" <;> simp [stepToCurrency, h, hs, entryApply]

theorem stepSide_eq (f : Filter) (st : BuildState) :
    stepSide f st = entryApply
      (match f.side with
       | some n => [("side = ", SqlValue.num n)]
       | none => []) st := by
  cases h : f.side <;> simp [stepSide, h, entryApply]

theorem stepStartDate_eq (f : Filter) (st : BuildState) :
    stepStartDate f st = entryApply
      (match f.startDate with
       | some s => if s == "" then [] else [("created_at >= ", SqlValue.date s)]
       | none => []) st := by
  cases h : f.startDate with
  | none => simp [stepStartDate, h, entryApply]
  | some s =>
    by_cases hs : s == "" <;> simp [stepStartDate, h, hs, entryApply]

theorem stepEndDate_eq (f : Filter) (st : BuildState) :
    stepEndDate f st = entryApply
      (match f.endDate with
       | some s => if s == "" then [] else [("created_at <= ", SqlValue.date s)]
       | none => []) st := by
  cases h : f.endDate with
  | none => simp [stepEndDate, h, entryApply]
  | some s =>
    by_cases hs : s == "" <;> simp [stepEndDate, h, hs, entryApply]

theorem buildState_eq (f : Filter) :
    buildState f = entryApply (entrySpecs f) ⟨[], [], 1⟩ := by
  rw [buildState, stepFromCurrency_eq, stepToCurrency_eq, stepSide_eq,
    stepStartDate_eq, stepEndDate_eq, entrySpecs]
  rw [entryApply_append, entryApply_append, entryApply_append, entryApply_append]

theorem conditions_characterization (f : Filter) :
    conditions f = numberedConds (entrySpecs f) 1 := by
  rw [conditions, buildState_eq, entryApply_conditions]
  rfl

theorem values_characterization (f : Filter) :
    values f = (entrySpecs f).map Prod.snd := by
  rw [values, buildState_eq, entryApply_values]
  rfl

theorem paramCount_characterization (f : Filter) :
    paramCount f = 1 + (entrySpecs f).length := by
  rw [paramCount, buildState_eq, entryApply_paramCount]

theorem length_ite_nil (s : String) (x : String × SqlValue) :
    (if s = "" then ([] : List (String × SqlValue)) else [x]).length = (!(s == "")).toNat := by
  by_cases h : s = ""
  · simp [h]
  · rw [if_neg h, show (s == "") = false by simpa using h]
    rfl

theorem entrySpecs_length (f : Filter) :
    (entrySpecs f).length = truthyCount f := by
  obtain ⟨fc, tc, sd, lm, sdt, edt, ob⟩ := f
  simp only [entrySpecs, truthyCount, strTruthy]
  cases fc <;> cases tc <;> cases sd <;> cases sdt <;> cases edt <;>
    simp [length_ite_nil] <;> omega

theorem mem_numberedConds (es : List (String × SqlValue)) (t : String) (v : SqlValue)
    (start : Nat) (h : (t, v) ∈ es) :
    ∃ k : Nat, (t ++ "$" ++ toString k) ∈ numberedConds es start := by
  induction es generalizing start with
  | nil => cases h
  | cons p rest ih =>
    rcases List.mem_cons.mp h with h1 | h2
    · subst h1
      exact ⟨start, by simp [numberedConds]⟩
    · obtain ⟨k, hk⟩ := ih (start + 1) h2
      exact ⟨k, by simp [numberedConds, hk]⟩

theorem getLast_append_one (l : List SqlValue) (a : SqlValue) :
    (l ++ [a]).getLast? = some a := by
  induction l with
  | nil => rfl
  | cons x xs ih => simp [List.getLast?_cons, ih]

/-! ### Claims -/

/-- C1, counterexample: the filter `{ fromCurrency: "" }` is accepted by
validation and has one *present* optional field, but the code's truthiness
check skips the empty string, so zero predicates are built — the claim's
count equality fails. -/
theorem c1_counterexample :
    ¬ ((conditions { fromCurrency := some "" }).length
        = presentCount { fromCurrency := some "" }) := by
  decide

/-- C1 (amended): the predicate count equals the number of optional fields
that pass the code's presence checks (truthiness for the string fields —
present and non-empty — and presence for `side`), and the parameter list
length is the predicate count plus one, with the limit value last. -/
theorem c1_amended_counts (f : Filter) :
    (conditions f).length = truthyCount f
    ∧ (queryValues f).length = (conditions f).length + 1
    ∧ (queryValues f).getLast? = some (SqlValue.num (limitVal f)) := by
  refine ⟨?_, ?_, ?_⟩
  · rw [conditions_characterization, numberedConds_length, entrySpecs_length]
  · simp [queryValues, values_characterization, conditions_characterization,
      numberedConds_length]
  · rw [queryValues, getLast_append_one]

/-- C2: the filter `{ fromCurrency: "USDT", toCurrency: "NGN", side: 0,
limit: 10 }` produces exactly the three predicates, the parameter list
`["USDT", "NGN", 0, 10]`, the default ordering, and `LIMIT` bound to `$4`
with value 10. -/
theorem c2_example_scenario :
    conditions { fromCurrency := some "USDT", toCurrency := some "NGN", side := some 0, limit := some 10 }
      = ["from_currency_id = $1", "to_currency_id = $2", "side = $3"]
    ∧ whereClause (conditions { fromCurrency := some "USDT", toCurrency := some "NGN", side := some 0, limit := some 10 })
      = "WHERE from_currency_id = $1 AND to_currency_id = $2 AND side = $3"
    ∧ queryValues { fromCurrency := some "USDT", toCurrency := some "NGN", side := some 0, limit := some 10 }
      = [SqlValue.str "USDT", SqlValue.str "NGN", SqlValue.num 0, SqlValue.num 10]
    ∧ orderByClause ({ fromCurrency := some "USDT", toCurrency := some "NGN", side := some 0, limit := some 10 } : Filter).orderBy
      = "ORDER BY created_at DESC"
    ∧ paramCount { fromCurrency := some "USDT", toCurrency := some "NGN", side := some 0, limit := some 10 } = 4
    ∧ limitVal { fromCurrency := some "USDT", toCurrency := some "NGN", side := some 0, limit := some 10 } = 10 := by
  decide

/-- C3, counterexample: `side` is declared as `z.number().optional()`, so the
numeric value 2 — not one of the documented 0/1 — passes validation, and an
unrecognized field is silently stripped by `z.object` rather than rejected. -/
theorem c3_counterexample :
    parseFilter (JSVal.obj [("side", JSVal.num 2)]) = Except.ok { side := some 2 }
    ∧ parseFilter (JSVal.obj [("unrecognizedField", JSVal.str "x")]) = Except.ok ({} : Filter)
    ∧ (∀ e, parseFilter (JSVal.obj [("side", JSVal.num 2)]) ≠ Except.error e) := by
  refine ⟨rfl, rfl, fun e h => ?_⟩
  rw [show parseFilter (JSVal.obj [("side", JSVal.num 2)])
      = Except.ok { side := some 2 } from rfl] at h
  exact Except.noConfusion h

/-- C3 (amended): wrongly-typed declared fields fail schema validation before
any query is constructed; unrecognized fields are silently stripped by the
schema (validation succeeds) rather than failing; `side` is validated only as
a number, so every numeric value — not just 0 and 1 — passes validation. -/
theorem c3_amended_validation :
    (∀ s, parseFilter (JSVal.obj [("side", JSVal.str s)]) = Except.error "Expected number")
    ∧ (∀ n, parseFilter (JSVal.obj [("fromCurrency", JSVal.num n)]) = Except.error "Expected string")
    ∧ (∀ b, parseFilter (JSVal.obj [("orderBy", JSVal.bool b)]) = Except.error "Expected object")
    ∧ (∀ n, parseFilter (JSVal.obj [("limit", JSVal.bool n)]) = Except.error "Expected number")
    ∧ (∀ v, parseFilter (JSVal.obj [("unknownKey", v)]) = Except.ok ({} : Filter))
    ∧ (∀ n, parseFilter (JSVal.obj [("side", JSVal.num n)]) = Except.ok { side := some n })
    ∧ (∀ x, parseFilter (JSVal.str x) = Except.error "Expected object") :=
  ⟨fun _ => rfl, fun _ => rfl, fun _ => rfl, fun _ => rfl, fun _ => rfl,
   fun _ => rfl, fun _ => rfl⟩

/-- C4: for every database outcome, `execute` acquires and releases the
pooled connection exactly once, returns the database result unmodified (rows
on success, the same error re-thrown on failure), and logs the error on the
failure path.  No error is swallowed or retried. -/
theorem c4_release_and_propagate (db : DB) (f : Filter) (s : ConnState) :
    (executeEff db f s).2.released = s.released + 1
    ∧ (executeEff db f s).2.acquired = s.acquired + 1
    ∧ (executeEff db f s).1 = db (query f) (queryValues f)
    ∧ (∀ e, db (query f) (queryValues f) = Except.error e →
        (executeEff db f s).2.errorLog = s.errorLog ++ ["Error fetching rates: " ++ e]) := by
  cases hdb : db (query f) (queryValues f) with
  | ok rows =>
    simp [executeEff, effBind, connect, tryFinally, tryCatch, runQuery,
      logError, throwErr, release, hdb]
  | error e =>
    simp [executeEff, effBind, connect, tryFinally, tryCatch, runQuery,
      logError, throwErr, release, hdb]

/-- C4 witness: a concrete failing database call, starting from the zero
state, ends with the error logged (and, by the theorem, one release). -/
theorem c4_witness :
    (executeEff (fun _ _ => Except.error "boom") ({} : Filter) ⟨0, 0, []⟩).2.errorLog
      = [] ++ ["Error fetching rates: " ++ "boom"] :=
  (c4_release_and_propagate (fun _ _ => Except.error "boom") ({} : Filter)
    ⟨0, 0, []⟩).2.2.2 "boom" rfl

/-- C5: whenever `side` is present with any numeric value `n` — including the
falsy 0 — a `side` equality predicate is emitted and the value `n` is pushed
onto the parameter list: the presence check is by numeric type, not
truthiness. -/
theorem c5_side_numeric_presence (f : Filter) (n : Int) (h : f.side = some n) :
    ∃ k : Nat, ("side = $" ++ toString k) ∈ conditions f
      ∧ SqlValue.num n ∈ values f := by
  have hmem : ("side = ", SqlValue.num n) ∈ entrySpecs f := by
    simp [entrySpecs, h]
  obtain ⟨k, hk⟩ := mem_numberedConds (entrySpecs f) "side = " (SqlValue.num n) 1 hmem
  refine ⟨k, ?_, ?_⟩
  · rw [conditions_characterization]
    exact hk
  · rw [values_characterization]
    exact List.mem_map_of_mem Prod.snd hmem

/-- C5 witness: `side = 0` concretely produces a predicate and pushes 0. -/
theorem c5_witness :
    ∃ k : Nat, ("side = $" ++ toString k) ∈ conditions { side := some 0 }
      ∧ SqlValue.num 0 ∈ values { side := some 0 } :=
  c5_side_numeric_presence { side := some 0 } 0 rfl

/-- C6: with every optional field omitted, no predicate is built (the query
text contains no `W` at all, hence no `WHERE` clause), ordering defaults to
`created_at DESC`, and `LIMIT` is bound to the single parameter `$1` with the
default value 100. -/
theorem c6_no_filters :
    conditions ({} : Filter) = []
    ∧ whereClause (conditions ({} : Filter)) = ""
    ∧ query ({} : Filter)
      = "\n        SELECT * FROM exchange_rates \n         \n        ORDER BY created_at DESC\n        LIMIT $1\n      "
    ∧ ¬ (Char.ofNat 87 ∈ (query ({} : Filter)).data)
    ∧ queryValues ({} : Filter) = [SqlValue.num 100]
    ∧ paramCount ({} : Filter) = 1
    ∧ limitVal ({} : Filter) = 100 := by
  decide

/-- C7: the `ORDER BY` clause interpolates `orderBy.column` directly into the
statement text, followed by `ASC` when ascending and `DESC` otherwise; in
particular `{ column: "rate", ascending: true }` yields `ORDER BY rate ASC`. -/
theorem c7_orderby_interpolation :
    (∀ (c : String) (asc : Bool), orderByClause (some ⟨c, asc⟩)
        = "ORDER BY " ++ c ++ " " ++ (if asc then "ASC" else "DESC"))
    ∧ orderByClause (some ⟨"rate", true⟩) = "ORDER BY rate ASC"
    ∧ query { orderBy := some ⟨"rate", true⟩ }
      = "\n        SELECT * FROM exchange_rates \n         \n        ORDER BY rate ASC\n        LIMIT $1\n      " := by
  refine ⟨fun c asc => rfl, by decide, by decide⟩

/-- C8: predicates are appended in the fixed order fromCurrency, toCurrency,
side, startDate, endDate with consecutive positional parameters starting at
`$1` (the `entrySpecs` list records the fixed order, the `>=`/`<=` bounds on
`created_at`, and the Date conversion of the bound values); the values align
with the predicates; `WHERE` is omitted entirely when no predicate was added,
and otherwise the predicates are joined with `AND`. -/
theorem c8_predicate_shape (f : Filter) :
    conditions f = numberedConds (entrySpecs f) 1
    ∧ values f = (entrySpecs f).map Prod.snd
    ∧ (conditions f = [] → whereClause (conditions f) = "")
    ∧ (conditions f ≠ [] → whereClause (conditions f)
        = "WHERE " ++ String.intercalate " AND " (conditions f)) := by
  refine ⟨conditions_characterization f, values_characterization f, ?_, ?_⟩
  · intro h
    simp [whereClause, h]
  · intro h
    rw [whereClause, if_pos]
    exact List.length_pos.mpr h

/-- C8 witness: a one-predicate filter concretely takes the `WHERE` branch. -/
theorem c8_witness :
    whereClause (conditions { side := some 1 })
      = "WHERE " ++ String.intercalate " AND " (conditions { side := some 1 }) :=
  (c8_predicate_shape { side := some 1 }).2.2.2 (by decide)

/-- C9: an empty-string `fromCurrency` or `toCurrency` is falsy, so the build
is identical to omitting the field: same conditions and values, same query
text, same parameters. -/
theorem c9_empty_string_currency (f : Filter) :
    buildState { f with fromCurrency := some "" } = buildState { f with fromCurrency := none }
    ∧ buildState { f with toCurrency := some "" } = buildState { f with toCurrency := none }
    ∧ query { f with fromCurrency := some "" } = query { f with fromCurrency := none }
    ∧ queryValues { f with fromCurrency := some "" } = queryValues { f with fromCurrency := none }
    ∧ query { f with toCurrency := some "" } = query { f with toCurrency := none }
    ∧ queryValues { f with toCurrency := some "" } = queryValues { f with toCurrency := none } := by
  have h1 : buildState { f with fromCurrency := some "" }
      = buildState { f with fromCurrency := none } := by
    simp [buildState, stepFromCurrency, stepToCurrency, stepSide, stepStartDate, stepEndDate]
  have h2 : buildState { f with toCurrency := some "" }
      = buildState { f with toCurrency := none } := by
    simp [buildState, stepFromCurrency, stepToCurrency, stepSide, stepStartDate, stepEndDate]
  refine ⟨h1, h2, ?_, ?_, ?_, ?_⟩ <;>
    simp [query, queryValues, conditions, values, paramCount, limitVal, h1, h2]

/-- C10: `startDate` and `endDate` are validated only as strings — any
string, ISO-8601 or not, passes validation — and for a non-empty string the
Date-constructor conversion of that exact string is pushed onto the parameter
list, so a malformed date is never a validation error. -/
theorem c10_dates_validated_as_strings (s : String) (h : s ≠ "") :
    parseFilter (JSVal.obj [("startDate", JSVal.str s)]) = Except.ok { startDate := some s }
    ∧ parseFilter (JSVal.obj [("endDate", JSVal.str s)]) = Except.ok { endDate := some s }
    ∧ SqlValue.date s ∈ queryValues { startDate := some s }
    ∧ SqlValue.date s ∈ queryValues { endDate := some s } := by
  refine ⟨rfl, rfl, ?_, ?_⟩ <;>
    simp [queryValues, values, buildState, stepFromCurrency, stepToCurrency,
      stepSide, stepStartDate, stepEndDate, appendCond, h]

/-- C10 witness: the unparseable string "not-a-date" passes validation and
its Date conversion is pushed as a parameter. -/
theorem c10_witness :
    parseFilter (JSVal.obj [("startDate", JSVal.str "not-a-date")])
      = Except.ok { startDate := some "not-a-date" }
    ∧ parseFilter (JSVal.obj [("endDate", JSVal.str "not-a-date")])
      = Except.ok { endDate := some "not-a-date" }
    ∧ SqlValue.date "not-a-date" ∈ queryValues { startDate := some "not-a-date" }
    ∧ SqlValue.date "not-a-date" ∈ queryValues { endDate := some "not-a-date" } :=
  c10_dates_validated_as_strings "not-a-date" (by decide)

end GetRates
